import Mathlib

/-!
# Verification of the Saitek FIP LCD protocol engine

Shallow embedding of `src/devices/saitek_fip_lcd.rs`: the control-packet
codec, the read/write phases of the vendor-interface transaction, the
public device-handle operations, and the lifecycle-thread state machine.

Machine integers are modelled as `Nat` with explicit `% 2^w` where the
source performs a narrowing cast; big-endian byte layout is modelled on
`List Nat` with every byte below 256.
-/

set_option autoImplicit false

namespace SaitekFip

/-- The opcode catalogue: Rust enum `Request` (`saitek_fip_lcd.rs` lines 26-36). -/
inductive Request
  | folderRemoved
  | saveFile
  | setImageFile
  | setImage
  | deleteFile
  | startServer
  | someFactoryModeRequest
  | clearImage
  | setLed
deriving DecidableEq, Repr

/-- `#[repr(u32)]` discriminants of `Request`. -/
def Request.toNat : Request → Nat
  | .folderRemoved => 0x02
  | .saveFile => 0x03
  | .setImageFile => 0x04
  | .setImage => 0x06
  | .deleteFile => 0x07
  | .startServer => 0x09
  | .someFactoryModeRequest => 0x0a
  | .clearImage => 0x13
  | .setLed => 0x18

/-- `TryFromPrimitive` for `Request`: partial inverse of `Request.toNat`. -/
def Request.fromNat (n : Nat) : Option Request :=
  if n = 0x02 then some .folderRemoved
  else if n = 0x03 then some .saveFile
  else if n = 0x04 then some .setImageFile
  else if n = 0x06 then some .setImage
  else if n = 0x07 then some .deleteFile
  else if n = 0x09 then some .startServer
  else if n = 0x0a then some .someFactoryModeRequest
  else if n = 0x13 then some .clearImage
  else if n = 0x18 then some .setLed
  else none

/-- The 44-byte control packet: eleven big-endian `u32` fields in source
order (`struct ControlPacket`, lines 167-181). Each field holds the value
of the corresponding `u32`; the setters below keep every field below
`2^32`. -/
structure ControlPacket where
  server_id : Nat
  page : Nat
  data_size : Nat
  header_error : Nat
  header_info : Nat
  request : Nat
  param_1 : Nat
  param_2 : Nat
  param_3 : Nat
  request_error : Nat
  request_info : Nat
deriving DecidableEq, Repr

/-- `set_server_id` (a `u32` argument embeds as `Nat` reduced mod `2^32`). -/
def ControlPacket.set_server_id (p : ControlPacket) (v : Nat) : ControlPacket :=
  { p with server_id := v % 2^32 }

/-- `set_page`: the source takes a `u8` and widens it to `u32` (line 197-199). -/
def ControlPacket.set_page (p : ControlPacket) (v : Nat) : ControlPacket :=
  { p with page := v % 2^8 }

/-- `set_data_size`: the source takes a `usize` and narrows it with
`value as u32` (line 206-208), hence the explicit `% 2^32`. -/
def ControlPacket.set_data_size (p : ControlPacket) (v : Nat) : ControlPacket :=
  { p with data_size := v % 2^32 }

/-- `set_header_error` (`u32` argument). -/
def ControlPacket.set_header_error (p : ControlPacket) (v : Nat) : ControlPacket :=
  { p with header_error := v % 2^32 }

/-- `set_header_info` (`u32` argument). -/
def ControlPacket.set_header_info (p : ControlPacket) (v : Nat) : ControlPacket :=
  { p with header_info := v % 2^32 }

/-- `set_request`: stores the discriminant of the `Request` value. -/
def ControlPacket.set_request (p : ControlPacket) (r : Request) : ControlPacket :=
  { p with request := r.toNat }

/-- `set_param_1` (`u32` argument). -/
def ControlPacket.set_param_1 (p : ControlPacket) (v : Nat) : ControlPacket :=
  { p with param_1 := v % 2^32 }

/-- `set_param_2` (`u32` argument). -/
def ControlPacket.set_param_2 (p : ControlPacket) (v : Nat) : ControlPacket :=
  { p with param_2 := v % 2^32 }

/-- `set_param_3` (`u32` argument). -/
def ControlPacket.set_param_3 (p : ControlPacket) (v : Nat) : ControlPacket :=
  { p with param_3 := v % 2^32 }

/-- `set_request_error` (`u32` argument). -/
def ControlPacket.set_request_error (p : ControlPacket) (v : Nat) : ControlPacket :=
  { p with request_error := v % 2^32 }

/-- `set_request_info` (`u32` argument). -/
def ControlPacket.set_request_info (p : ControlPacket) (v : Nat) : ControlPacket :=
  { p with request_info := v % 2^32 }

/-- Getter `page()`: `try_into::<u8>().expect(..)` (line 193-195); a value
of 256 or more would panic, modelled by `none`. -/
def ControlPacket.page_get (p : ControlPacket) : Option Nat :=
  if p.page < 2^8 then some p.page else none

/-- Getter `request()`: `Request::try_from` on the raw field (line 229-231). -/
def ControlPacket.request_get (p : ControlPacket) : Option Request :=
  Request.fromNat p.request

/-- `has_error` (lines 282-284): `header_error() > 0 || request_error() > 0`. -/
def ControlPacket.has_error (p : ControlPacket) : Bool :=
  decide (p.header_error > 0) || decide (p.request_error > 0)

/-- `ControlPacket::new` (lines 286-300): all fields zero except `request`. -/
def ControlPacket.new (r : Request) : ControlPacket :=
  { server_id := 0
    page := 0
    data_size := 0
    header_error := 0
    header_info := 0
    request := r.toNat
    param_1 := 0
    param_2 := 0
    param_3 := 0
    request_error := 0
    request_info := 0 }

/-- Every field is a `u32` value. Holds for every packet built through
`ControlPacket.new` and the setters. -/
def CPwf (p : ControlPacket) : Prop :=
  p.server_id < 2^32 ∧ p.page < 2^32 ∧ p.data_size < 2^32 ∧
  p.header_error < 2^32 ∧ p.header_info < 2^32 ∧ p.request < 2^32 ∧
  p.param_1 < 2^32 ∧ p.param_2 < 2^32 ∧ p.param_3 < 2^32 ∧
  p.request_error < 2^32 ∧ p.request_info < 2^32

instance (p : ControlPacket) : Decidable (CPwf p) := by
  unfold CPwf
  infer_instance

/-- Big-endian byte serialization of one `u32` field
(`zerocopy::byteorder::U32<BigEndian>`). -/
def u32be (v : Nat) : List Nat :=
  [v / 2^24 % 2^8, v / 2^16 % 2^8, v / 2^8 % 2^8, v % 2^8]

/-- `AsBytes` on the `repr(C)` struct: the eleven fields serialized
back-to-back, 44 bytes total. -/
def encodeCP (p : ControlPacket) : List Nat :=
  u32be p.server_id ++ u32be p.page ++ u32be p.data_size ++
  u32be p.header_error ++ u32be p.header_info ++ u32be p.request ++
  u32be p.param_1 ++ u32be p.param_2 ++ u32be p.param_3 ++
  u32be p.request_error ++ u32be p.request_info

/-- Big-endian reassembly of four bytes into one field value. -/
def be4 (b0 b1 b2 b3 : Nat) : Nat :=
  ((b0 * 2^8 + b1) * 2^8 + b2) * 2^8 + b3

/-- `ControlPacket::read_from` (`zerocopy::FromBytes`): succeeds exactly on
a 44-byte buffer, reading the eleven big-endian fields in order. -/
def decodeCP (bs : List Nat) : Option ControlPacket :=
  match bs with
  | a0 :: a1 :: a2 :: a3 :: b0 :: b1 :: b2 :: b3 :: c0 :: c1 :: c2 :: c3 ::
    d0 :: d1 :: d2 :: d3 :: e0 :: e1 :: e2 :: e3 :: f0 :: f1 :: f2 :: f3 ::
    g0 :: g1 :: g2 :: g3 :: h0 :: h1 :: h2 :: h3 :: i0 :: i1 :: i2 :: i3 ::
    j0 :: j1 :: j2 :: j3 :: k0 :: k1 :: k2 :: k3 :: [] =>
    some { server_id := be4 a0 a1 a2 a3
           page := be4 b0 b1 b2 b3
           data_size := be4 c0 c1 c2 c3
           header_error := be4 d0 d1 d2 d3
           header_info := be4 e0 e1 e2 e3
           request := be4 f0 f1 f2 f3
           param_1 := be4 g0 g1 g2 g3
           param_2 := be4 h0 h1 h2 h3
           param_3 := be4 i0 i1 i2 i3
           request_error := be4 j0 j1 j2 j3
           request_info := be4 k0 k1 k2 k3 }
  | _ => none

lemma be4_u32be (v : Nat) (h : v < 2^32) :
    be4 (v / 2^24 % 2^8) (v / 2^16 % 2^8) (v / 2^8 % 2^8) (v % 2^8) = v := by
  unfold be4
  omega

lemma encodeCP_length (p : ControlPacket) : (encodeCP p).length = 44 := by
  simp [encodeCP, u32be]

lemma decode_encode (p : ControlPacket) (h : CPwf p) :
    decodeCP (encodeCP p) = some p := by
  obtain ⟨h1, h2, h3, h4, h5, h6, h7, h8, h9, h10, h11⟩ := h
  show decodeCP (encodeCP p) = some p
  simp only [encodeCP, u32be, List.cons_append, List.nil_append, decodeCP]
  rw [be4_u32be _ h1, be4_u32be _ h2, be4_u32be _ h3, be4_u32be _ h4,
      be4_u32be _ h5, be4_u32be _ h6, be4_u32be _ h7, be4_u32be _ h8,
      be4_u32be _ h9, be4_u32be _ h10, be4_u32be _ h11]

/-- `rusb::Error` variants relevant to this driver. -/
inductive RusbError
  | timeout
  | noDevice
  | access
  | other
deriving DecidableEq, Repr

/-- Outcome of a fallible source operation: `Ok`, a transport-level
`rusb::Error`, or a Rust `panic!` / failed `expect` (which this embedding
keeps distinct from returned errors). -/
inductive TResult (α : Type)
  | ok (a : α) : TResult α
  | transportErr (e : RusbError) : TResult α
  | panicked (msg : String) : TResult α
deriving DecidableEq, Repr

/-- `UsbSaitekFipLcdInt::_read` (lines 304-337), the read phase of a
transaction, against a well-behaved transport modelled as the byte stream
the device has available: `read_bulk(buf)` delivers
`min buf.len() stream.length` bytes.

Faithfulness notes, traced from the source:
* the 44-byte header buffer is a stack array, so its slice length is 44;
* a short header read returns `rusb::Error::Other`;
* `data_size() >= 512 * 1024` panics with "Too big data size" before any
  payload buffer is created;
* the payload buffer is `Vec::with_capacity(data_size)`, whose *length*
  is 0; `&mut vec` coerces to a slice of length 0, so the payload
  `read_bulk` call is issued with a zero-length buffer, reads 0 bytes and
  leaves the vector empty. -/
def readPhase (stream : List Nat) : TResult (ControlPacket × Option (List Nat)) :=
  let n := min 44 stream.length
  if n = 44 then
    match decodeCP (stream.take 44) with
    | none => .panicked "Something strange"
    | some p =>
      if p.data_size = 0 then
        .ok (p, none)
      else if p.data_size ≥ 512 * 1024 then
        .panicked "Too big data size"
      else
        let rest := stream.drop 44
        let bufLen := 0
        let m := min bufLen rest.length
        let vec := rest.take m
        if m = p.data_size then .ok (p, some vec) else .transportErr .other
  else .transportErr .other

/-- `UsbSaitekFipLcdInt::_write` (lines 339-361) under a transport that
accepts full writes: panics when the payload length differs from the
packet's declared `data_size`, otherwise emits the 44 encoded bytes
followed by the payload on the output endpoint. -/
def writePhase (p : ControlPacket) (data : Option (List Nat)) : TResult (List Nat) :=
  if (data.getD []).length ≠ p.data_size then
    .panicked "Data size is not the same as the data size in the packet"
  else
    .ok (encodeCP p ++ data.getD [])

/-- The Session of the design: `UsbSaitekFipLcdInt` with its `transcieve`
operation abstracted as a function of the request packet and payload
(serializing through `vendor_if_mutex` has no observable effect on a
single call). -/
structure SessionM where
  transact : ControlPacket → Option (List Nat) → TResult (ControlPacket × Option (List Nat))
  serial_number : String
  device_type_uuid : String

/-- `UsbSaitekFipLcd::transmit` (lines 391-401). The slot
`Arc<RwLock<Option<UsbSaitekFipLcdInt>>>` is the `Option SessionM`; an
empty slot hits `.expect("Device is gone or not initialized yet")`, a
panic. The `Bool` is instrumentation recording whether `transcieve` was
invoked. -/
def transmit (slot : Option SessionM) (p : ControlPacket) (d : Option (List Nat)) :
    TResult (ControlPacket × Option (List Nat)) × Bool :=
  match slot with
  | none => (.panicked "Device is gone or not initialized yet", false)
  | some s => (s.transact p d, true)

/-- Result of a public `Result<(), ()>` operation: `Ok(())`, `Err(())`, or
a panic that unwound out of the operation. -/
inductive OpResult
  | ok
  | opErr
  | panicked (msg : String)
deriving DecidableEq, Repr

/-- The common tail of every public operation (e.g. lines 518-522):
`map_err(|_| ())?` turns a transport error into `Err(())`, then
`has_error` on the response selects `Ok(())` or `Err(())`. -/
def interpResponse (r : TResult (ControlPacket × Option (List Nat))) : OpResult :=
  match r with
  | .ok (resp, _) => if resp.has_error then .opErr else .ok
  | .transportErr _ => .opErr
  | .panicked msg => .panicked msg

/-- Request built by `set_image_data` (lines 514-517): opcode `SetImage`,
`page`, and `data_size` set to the image length, payload the image. -/
def set_image_data_req (page : Nat) (data : List Nat) : ControlPacket × Option (List Nat) :=
  (((ControlPacket.new Request.setImage).set_page page).set_data_size data.length, some data)

/-- Request built by `set_led` (lines 525-529): opcode `SetLed`, the three
scalar parameters, no payload. -/
def set_led_req (page index : Nat) (value : Bool) : ControlPacket × Option (List Nat) :=
  ((((ControlPacket.new Request.setLed).set_param_1 page).set_param_2 index).set_param_3
      (if value then 1 else 0),
    none)

/-- Request built by `clear_image` (lines 537-539): opcode `ClearImage`,
`page` only, no payload. -/
def clear_image_req (page : Nat) : ControlPacket × Option (List Nat) :=
  ((ControlPacket.new Request.clearImage).set_page page, none)

/-- Request built by `save_file` (lines 547-557): opcode `SaveFile`,
`param_1 = page`, `param_3 = file`, `data_size` set to the length of the
buffer read from the byte source, payload that buffer. The byte source is
modelled as the list of bytes `read_to_end` collects. -/
def save_file_req (page file : Nat) (data : List Nat) : ControlPacket × Option (List Nat) :=
  ((((ControlPacket.new Request.saveFile).set_param_1 page).set_param_3 file).set_data_size
      data.length,
    some data)

/-- Request built by `display_file` (lines 568-572): the packet is
`ControlPacket::new(Request::SaveFile)` — opcode 0x03 — with
`param_1 = page`, `param_2 = index`, `param_3 = file`, no payload. -/
def display_file_req (page index file : Nat) : ControlPacket × Option (List Nat) :=
  ((((ControlPacket.new Request.saveFile).set_param_1 page).set_param_2 index).set_param_3 file,
    none)

/-- Request built by `delete_file` (lines 580-583): the packet is
`ControlPacket::new(Request::SaveFile)` — opcode 0x03 — with
`param_1 = page`, `param_3 = file`, `param_2` left untouched, no
payload. -/
def delete_file_req (page file : Nat) : ControlPacket × Option (List Nat) :=
  (((ControlPacket.new Request.saveFile).set_param_1 page).set_param_3 file, none)

/-- `ManagedDisplay::serial_number` (lines 498-504): panics on an empty
slot, otherwise clones the stored serial number. -/
def serial_number (slot : Option SessionM) : TResult String :=
  match slot with
  | none => .panicked "Device is gone or not initialized yet"
  | some s => .ok s.serial_number

/-- `ManagedDisplay::device_type_uuid` (lines 506-512). -/
def device_type_uuid (slot : Option SessionM) : TResult String :=
  match slot with
  | none => .panicked "Device is gone or not initialized yet"
  | some s => .ok s.device_type_uuid

/-- `ManagedDisplay::set_image_data` (lines 514-523). -/
def set_image_data (slot : Option SessionM) (page : Nat) (data : List Nat) : OpResult × Bool :=
  let rq := set_image_data_req page data
  let (r, t) := transmit slot rq.1 rq.2
  (interpResponse r, t)

/-- `ManagedDisplay::set_led` (lines 525-535). -/
def set_led (slot : Option SessionM) (page index : Nat) (value : Bool) : OpResult × Bool :=
  let rq := set_led_req page index value
  let (r, t) := transmit slot rq.1 rq.2
  (interpResponse r, t)

/-- `ManagedDisplay::clear_image` (lines 537-545). -/
def clear_image (slot : Option SessionM) (page : Nat) : OpResult × Bool :=
  let rq := clear_image_req page
  let (r, t) := transmit slot rq.1 rq.2
  (interpResponse r, t)

/-- `ManagedDisplay::save_file` (lines 547-566), for a byte source whose
`read_to_end` succeeds with the given bytes. -/
def save_file (slot : Option SessionM) (page file : Nat) (data : List Nat) : OpResult × Bool :=
  let rq := save_file_req page file data
  let (r, t) := transmit slot rq.1 rq.2
  (interpResponse r, t)

/-- `ManagedDisplay::display_file` (lines 568-578). -/
def display_file (slot : Option SessionM) (page index file : Nat) : OpResult × Bool :=
  let rq := display_file_req page index file
  let (r, t) := transmit slot rq.1 rq.2
  (interpResponse r, t)

/-- `ManagedDisplay::delete_file` (lines 580-589). -/
def delete_file (slot : Option SessionM) (page file : Nat) : OpResult × Bool :=
  let rq := delete_file_req page file
  let (r, t) := transmit slot rq.1 rq.2
  (interpResponse r, t)

/-- `ManagedDisplay::ready` (lines 494-496): true iff the slot holds a
Session. -/
def ready (slot : Option SessionM) : Bool :=
  slot.isSome

/-- Outcome of the setup part of `UsbSaitekFipLcd::_thread_target` (lines
414-426), after a session has been built: the factory-mode probe either
panics (failed `expect`), detects factory mode and returns without
installing, or installs the session into the slot. -/
inductive SetupResult
  | panicked (msg : String)
  | skippedFactoryMode
  | installed (s : SessionM)

/-- Lines 414-426 of `_thread_target`: transcieve
`ControlPacket::new(Request::SomeFactoryModeRequest)` with no payload;
`expect` turns a transport error into a panic; a response *without* error
means factory mode, and the run returns without installing; a response
*with* error proceeds to install the session. -/
def threadSetup (s : SessionM) : SetupResult :=
  match s.transact (ControlPacket.new Request.someFactoryModeRequest) none with
  | .panicked msg => .panicked msg
  | .transportErr _ => .panicked "Could not transcieve with the device"
  | .ok (response, _) =>
    if response.has_error then .installed s else .skippedFactoryMode

/-- The slot contents after `threadSetup`: only the `installed` outcome
executes `device.int.write().replace(device_int)` (lines 422-426); the
slot starts as `Arc::default()`, i.e. `None`. -/
def slotAfterSetup (r : SetupResult) : Option SessionM :=
  match r with
  | .installed s => some s
  | _ => none

/-- Result of one HID report read in the report loop. -/
inductive HidRead
  | ok (b0 b1 : Nat)
  | err (e : RusbError)

/-- Outcome of one iteration of the report loop. -/
inductive IterResult
  | exitThread
  | panicked (msg : String)
  | next (slot : Option SessionM)

/-- One iteration of the report loop of `_thread_target` (lines 430-468).
`handleAlive` is whether `device_weak.upgrade()` succeeds; when it does,
the iteration evaluates
`device.int.read().expect(..).as_ref().unwrap().handle.read_hid(..)`:
the `.unwrap()` on the slot happens while building the match scrutinee,
*before* any HID read, so an empty slot panics regardless of what the
device would deliver. With a session present: a successful read or a
timeout leaves the slot untouched; `NoDevice` and every other error clear
the slot (`guard.take()`) and the loop continues. -/
def reportLoopIter (handleAlive : Bool) (slot : Option SessionM) (hid : HidRead) : IterResult :=
  if handleAlive = false then .exitThread
  else
    match slot with
    | none => .panicked "called Option unwrap on a None value"
    | some s =>
      match hid with
      | .ok _ _ => .next (some s)
      | .err .timeout => .next (some s)
      | .err .noDevice => .next none
      | .err _ => .next none

/-! ## Theorems about the claims -/

/-- C5: for every opcode, page value, combination of 32-bit parameter
values and declared payload length — i.e. for every control packet whose
eleven fields are `u32` values — encoding into the 44-byte wire form and
decoding those 44 bytes back reproduces every field exactly. -/
theorem c5_codec_roundtrip (p : ControlPacket) (h : CPwf p) :
    (encodeCP p).length = 44 ∧ decodeCP (encodeCP p) = some p :=
  ⟨encodeCP_length p, decode_encode p h⟩

/-- A sample packet exercising the codec round-trip: the set-LED opcode,
page 255, extremal data size and mixed parameters. -/
def cpSample : ControlPacket :=
  ((((((ControlPacket.new Request.setLed).set_server_id 1).set_page 255).set_data_size
        4294967295).set_param_1 305419896).set_param_2 1).set_param_3 3

/-- Witness for C5: the round-trip theorem applied to `cpSample`. -/
theorem c5_codec_roundtrip_witness :
    CPwf cpSample ∧
      ((encodeCP cpSample).length = 44 ∧ decodeCP (encodeCP cpSample) = some cpSample) :=
  ⟨by decide, c5_codec_roundtrip cpSample (by decide)⟩

/-- C6: a response declaring a payload of 512 KiB or more makes the read
phase abort with the fatal "Too big data size" panic; by the shape of
`readPhase`, this branch is taken before any payload buffer is created or
any payload byte is read, whatever bytes the device has available. -/
theorem c6_oversize_read_panics (p : ControlPacket) (extra : List Nat) (h : CPwf p)
    (hds : 512 * 1024 ≤ p.data_size) :
    readPhase (encodeCP p ++ extra) = .panicked "Too big data size" := by
  have hlen : (encodeCP p).length = 44 := encodeCP_length p
  have htake : (encodeCP p ++ extra).take 44 = encodeCP p := by
    rw [← hlen]
    exact List.take_left _ _
  have hmin : min 44 (encodeCP p ++ extra).length = 44 := by
    simp [List.length_append, hlen]
  have h0 : p.data_size ≠ 0 := by omega
  unfold readPhase
  simp [hmin, htake, decode_encode p h, h0, hds]
  omega

/-- A packet declaring exactly the 512 KiB cap as its payload size. -/
def cpBig : ControlPacket :=
  (ControlPacket.new Request.clearImage).set_data_size (512 * 1024)

/-- Witness for C6: the oversize panic at `cpBig` with no trailing bytes. -/
theorem c6_oversize_read_panics_witness :
    CPwf cpBig ∧ 512 * 1024 ≤ cpBig.data_size ∧
      readPhase (encodeCP cpBig ++ []) = .panicked "Too big data size" :=
  ⟨by decide, by decide, c6_oversize_read_panics cpBig [] (by decide) (by decide)⟩

/-- C7: `has_error` is true iff `header_error > 0` or `request_error > 0`,
for every field combination (in particular both-zero gives `false` and
both-nonzero gives `true`). -/
theorem c7_has_error_iff (p : ControlPacket) :
    p.has_error = true ↔ (0 < p.header_error ∨ 0 < p.request_error) := by
  simp [ControlPacket.has_error]

/-- C10: a packet freshly constructed by `ControlPacket::new(opcode)` has
its `request` field equal to the opcode and every other field zero; hence
`has_error()` is `false`, `data_size()` is 0 and `page()` is 0. -/
theorem c10_new_packet (r : Request) :
    (ControlPacket.new r).request = r.toNat ∧
    (ControlPacket.new r).server_id = 0 ∧ (ControlPacket.new r).page = 0 ∧
    (ControlPacket.new r).data_size = 0 ∧ (ControlPacket.new r).header_error = 0 ∧
    (ControlPacket.new r).header_info = 0 ∧ (ControlPacket.new r).param_1 = 0 ∧
    (ControlPacket.new r).param_2 = 0 ∧ (ControlPacket.new r).param_3 = 0 ∧
    (ControlPacket.new r).request_error = 0 ∧ (ControlPacket.new r).request_info = 0 ∧
    (ControlPacket.new r).has_error = false ∧ (ControlPacket.new r).page_get = some 0 := by
  refine ⟨rfl, rfl, rfl, rfl, rfl, rfl, rfl, rfl, rfl, rfl, rfl, rfl, ?_⟩
  simp [ControlPacket.page_get, ControlPacket.new]

/-- C1 counterexample: the packets built by `display_file` and
`delete_file` carry request opcode 0x03 (`Request::SaveFile`), not the
delete-file opcode 0x07 the claim names. -/
theorem c1_opcode_counterexample :
    (display_file_req 0 0 0).1.request = 0x03 ∧
    (display_file_req 0 0 0).1.request ≠ 0x07 ∧
    (delete_file_req 0 0).1.request = 0x03 ∧
    (delete_file_req 0 0).1.request ≠ 0x07 := by
  decide

/-- C1 amended: for every page, index and file id in 0-255, `display_file`
and `delete_file` build a control packet whose request opcode is the
*save-file* opcode 0x03 (reused), with the operation distinguished only by
which of `param_1`/`param_2`/`param_3` are populated (`display_file` sets
all three, `delete_file` leaves `param_2` at zero), and with no payload. -/
theorem c1_file_ops_amended (page index file : Nat)
    (hp : page < 2^8) (hi : index < 2^8) (hf : file < 2^8) :
    (display_file_req page index file).1.request = Request.saveFile.toNat ∧
    (display_file_req page index file).1.param_1 = page ∧
    (display_file_req page index file).1.param_2 = index ∧
    (display_file_req page index file).1.param_3 = file ∧
    (display_file_req page index file).1.data_size = 0 ∧
    (display_file_req page index file).2 = none ∧
    (delete_file_req page file).1.request = Request.saveFile.toNat ∧
    (delete_file_req page file).1.param_1 = page ∧
    (delete_file_req page file).1.param_2 = 0 ∧
    (delete_file_req page file).1.param_3 = file ∧
    (delete_file_req page file).1.data_size = 0 ∧
    (delete_file_req page file).2 = none := by
  refine ⟨rfl, ?_, ?_, ?_, rfl, rfl, rfl, ?_, rfl, ?_, rfl, rfl⟩ <;>
    simp only [display_file_req, delete_file_req, ControlPacket.set_param_1,
      ControlPacket.set_param_2, ControlPacket.set_param_3] <;>
    omega

/-- Witness for C1 amended, at page 1, index 2, file 3. -/
theorem c1_file_ops_amended_witness :
    ((1 : Nat) < 2^8 ∧ (2 : Nat) < 2^8 ∧ (3 : Nat) < 2^8) ∧
      ((display_file_req 1 2 3).1.request = Request.saveFile.toNat ∧
      (display_file_req 1 2 3).1.param_1 = 1 ∧
      (display_file_req 1 2 3).1.param_2 = 2 ∧
      (display_file_req 1 2 3).1.param_3 = 3 ∧
      (display_file_req 1 2 3).1.data_size = 0 ∧
      (display_file_req 1 2 3).2 = none ∧
      (delete_file_req 1 3).1.request = Request.saveFile.toNat ∧
      (delete_file_req 1 3).1.param_1 = 1 ∧
      (delete_file_req 1 3).1.param_2 = 0 ∧
      (delete_file_req 1 3).1.param_3 = 3 ∧
      (delete_file_req 1 3).1.data_size = 0 ∧
      (delete_file_req 1 3).2 = none) :=
  ⟨by decide, c1_file_ops_amended 1 2 3 (by decide) (by decide) (by decide)⟩

/-- C2 counterexample: with the protected slot empty, `set_led` does not
return the operation-failure result `Err(())`; it panics (the slot access
is an `expect` on `None`). `serial_number`, whose return type has no
failure case at all, panics the same way. -/
theorem c2_empty_slot_counterexample :
    (set_led none 1 2 true).1 = OpResult.panicked "Device is gone or not initialized yet" ∧
    (set_led none 1 2 true).1 ≠ OpResult.opErr ∧
    serial_number none = TResult.panicked "Device is gone or not initialized yet" := by
  refine ⟨rfl, by decide, rfl⟩

/-- C2 amended: for every public device-handle operation, if the protected
slot is empty the operation fails immediately by *panicking* with
"Device is gone or not initialized yet" (the failed `expect` on the slot),
without performing any transaction — the instrumentation `Bool` of
`transmit` stays `false`. No operation-failure result is returned. -/
theorem c2_empty_slot_amended (page index file : Nat) (value : Bool) (data : List Nat) :
    serial_number none = .panicked "Device is gone or not initialized yet" ∧
    device_type_uuid none = .panicked "Device is gone or not initialized yet" ∧
    set_image_data none page data =
      (.panicked "Device is gone or not initialized yet", false) ∧
    set_led none page index value =
      (.panicked "Device is gone or not initialized yet", false) ∧
    clear_image none page = (.panicked "Device is gone or not initialized yet", false) ∧
    save_file none page file data =
      (.panicked "Device is gone or not initialized yet", false) ∧
    display_file none page index file =
      (.panicked "Device is gone or not initialized yet", false) ∧
    delete_file none page file = (.panicked "Device is gone or not initialized yet", false) :=
  ⟨rfl, rfl, rfl, rfl, rfl, rfl, rfl, rfl⟩

/-- Helper for C3: the read phase can never return a payload at all — in
the nonzero-size branch the buffer handed to the bulk read has length 0
(`Vec::with_capacity` does not set the length), so the byte-count check
can only fail. -/
lemma readPhase_payload_none (stream : List Nat) (p : ControlPacket)
    (od : Option (List Nat)) (h : readPhase stream = .ok (p, od)) : od = none := by
  simp only [readPhase] at h
  split at h
  · split at h
    · exact absurd h (by simp)
    · split at h
      · simp only [TResult.ok.injEq, Prod.mk.injEq] at h
        exact h.2.symm
      · split at h
        · exact absurd h (by simp)
        · split at h
          · rename_i hds0 hbig hcond
            have hz : (0 : Nat) ⊓ (stream.drop 44).length = 0 :=
              Nat.min_eq_left (Nat.zero_le _)
            rw [hz] at hcond
            exact absurd hcond.symm hds0
          · exact absurd h (by simp)
  · exact absurd h (by simp)

/-- The 44-byte response packet of C3's failing transaction: it declares a
1-byte payload. -/
def cpResp1 : ControlPacket :=
  (ControlPacket.new Request.clearImage).set_data_size 1

/-- C3: evaluating the read phase at the failing input — a response
declaring `data_size = 1` with one payload byte (171) available on the
endpoint. The claim says the phase reads that byte and returns it as the
payload; the code issues the payload `read_bulk` with the zero-length
slice of `Vec::with_capacity(1)`, reads 0 bytes, fails the size check and
returns the transport error `rusb::Error::Other`. -/
theorem c3_payload_read_bug :
    cpResp1.data_size = 1 ∧
    readPhase (encodeCP cpResp1 ++ [171]) = .transportErr RusbError.other := by
  decide

/-- A sample session whose transactions fail at transport level. -/
def sessSample : SessionM :=
  { transact := fun _ _ => .transportErr .other
    serial_number := "SN123"
    device_type_uuid := "3E083CD8-6A37-4A58-80A8-3D6A2C07513E" }

/-- C4: evaluating the report loop at the failing input. A device-gone
error while the slot holds a Session does clear the slot (`ready` flips
from `true` to `false`), but on the *next* iteration the loop body
unwraps the now-empty slot while building its match scrutinee (line 440)
and panics — whatever the device would deliver — so the thread crashes
instead of continuing to loop as the claim states. -/
theorem c4_disconnect_then_crash :
    ready (some sessSample) = true ∧
    reportLoopIter true (some sessSample) (.err .noDevice) = .next none ∧
    ready none = false ∧
    (∀ hid, reportLoopIter true none hid =
      .panicked "called Option unwrap on a None value") :=
  ⟨rfl, rfl, rfl, fun _ => rfl⟩

/-- C8: if the factory-mode probe transaction returns a response carrying
no error, the lifecycle run terminates without installing a Session, and
the slot it would have filled stays empty — `ready()` never becomes true
for that connection attempt. -/
theorem c8_factory_mode_never_installs (s : SessionM) (resp : ControlPacket)
    (d : Option (List Nat))
    (hp : s.transact (ControlPacket.new Request.someFactoryModeRequest) none = .ok (resp, d))
    (he : resp.has_error = false) :
    threadSetup s = .skippedFactoryMode ∧
      ready (slotAfterSetup (threadSetup s)) = false := by
  have h1 : threadSetup s = .skippedFactoryMode := by
    unfold threadSetup
    rw [hp]
    simp [he]
  exact ⟨h1, by rw [h1]; rfl⟩

/-- A session whose factory-mode probe comes back error-free. -/
def sessFactory : SessionM :=
  { transact := fun _ _ => .ok (ControlPacket.new Request.startServer, none)
    serial_number := "SN123"
    device_type_uuid := "3E083CD8-6A37-4A58-80A8-3D6A2C07513E" }

/-- Witness for C8: the no-error probe response of `sessFactory`. -/
theorem c8_factory_mode_never_installs_witness :
    sessFactory.transact (ControlPacket.new Request.someFactoryModeRequest) none =
        .ok (ControlPacket.new Request.startServer, none) ∧
      (ControlPacket.new Request.startServer).has_error = false ∧
      (threadSetup sessFactory = .skippedFactoryMode ∧
        ready (slotAfterSetup (threadSetup sessFactory)) = false) :=
  ⟨rfl, rfl, c8_factory_mode_never_installs sessFactory _ _ rfl rfl⟩

/-- C9 counterexample: for a byte source of 2^32 bytes the `as u32`
narrowing in `set_data_size` wraps, so the transacted packet's `data_size`
(0) differs from the source length (2^32). -/
theorem c9_truncation_counterexample :
    (save_file_req 1 3 (List.replicate (2^32) 0)).1.data_size ≠
      (List.replicate (2^32) 0).length := by
  have hlen : (List.replicate (2^32) (0 : Nat)).length = 2^32 :=
    List.length_replicate _ _
  have hds : (save_file_req 1 3 (List.replicate (2^32) 0)).1.data_size = 2^32 % 2^32 := by
    simp only [save_file_req, ControlPacket.set_data_size, ControlPacket.set_param_1,
      ControlPacket.set_param_3, hlen]
  rw [hds, hlen]
  decide

/-- C9 amended: for every byte source of length below 2^32, `save_file`
with page 1 and file id 3 builds a packet with `param_1 = 1`,
`param_3 = 3` and `data_size` equal to the source length, hands the source
content as the payload, and the write phase transmits exactly the encoded
packet followed by those payload bytes. -/
theorem c9_save_file_amended (data : List Nat) (h : data.length < 2^32) :
    (save_file_req 1 3 data).1.param_1 = 1 ∧
    (save_file_req 1 3 data).1.param_3 = 3 ∧
    (save_file_req 1 3 data).1.data_size = data.length ∧
    (save_file_req 1 3 data).2 = some data ∧
    writePhase (save_file_req 1 3 data).1 (save_file_req 1 3 data).2 =
      .ok (encodeCP (save_file_req 1 3 data).1 ++ data) := by
  norm_num at h
  have hm : data.length % 4294967296 = data.length := Nat.mod_eq_of_lt h
  refine ⟨rfl, rfl, ?_, rfl, ?_⟩
  · simp [save_file_req, ControlPacket.set_data_size, ControlPacket.set_param_1,
      ControlPacket.set_param_3, hm]
  · simp [writePhase, save_file_req, ControlPacket.set_data_size,
      ControlPacket.set_param_1, ControlPacket.set_param_3, hm]

/-- Witness for C9 amended, at the three-byte source `[5, 6, 7]`. -/
theorem c9_save_file_amended_witness :
    ([5, 6, 7] : List Nat).length < 2^32 ∧
      ((save_file_req 1 3 [5, 6, 7]).1.param_1 = 1 ∧
      (save_file_req 1 3 [5, 6, 7]).1.param_3 = 3 ∧
      (save_file_req 1 3 [5, 6, 7]).1.data_size = ([5, 6, 7] : List Nat).length ∧
      (save_file_req 1 3 [5, 6, 7]).2 = some [5, 6, 7] ∧
      writePhase (save_file_req 1 3 [5, 6, 7]).1 (save_file_req 1 3 [5, 6, 7]).2 =
        .ok (encodeCP (save_file_req 1 3 [5, 6, 7]).1 ++ [5, 6, 7])) :=
  ⟨by decide, c9_save_file_amended [5, 6, 7] (by decide)⟩

end SaitekFip
